import Mathlib

/-!
Shallow embedding of the content-navigation controller in `src/script.js`
(the `DOMContentLoaded` handler of the study-guide page), together with the
post-processing pipeline applied to rendered Markdown content.

Conventions of the embedding:
* DOM state touched by the controller is collected in the `State` structure:
  the sidebar links (each with its `data-file` attribute and whether it has
  the `active` class), the mutable `currentTopicIndex` (a JS number, modelled
  as `Int` since `Array.prototype.indexOf` can return `-1`), the
  `disabled` flags of the prev/next buttons, the URL fragment (without the
  leading `#`; `none` models an absent/empty hash), the progress-bar fill
  width in percent (a rational, the exact value of the JS float arithmetic on
  the indices 0..8), the text of the `current-topic` display, the content
  region, and the ordered log of fetches that have been issued.
* The network is an explicit oracle `fetch : String → FetchResult`; the
  asynchronous `.then/.catch` callbacks of `loadMarkdownContent` are folded
  into the synchronous state update (no later statement of a handler reads
  the content region, so the final state is the same).
* Purely visual actions with no state read back anywhere (scrolling, the
  loading spinner shown after 150 ms, mobile sidebar collapsing, theming)
  are not modelled; no claim mentions them.
-/

namespace StudyGuide

/-- The `orderedTopics` array of `src/script.js`, lines 67-79. -/
def orderedTopics : List String :=
  ["Overview.md",
   "1-OOP.md",
   "2-IO.md",
   "3-Inheritance.md",
   "4-MultiFile.md",
   "5-Templates.md",
   "6-Pointers.md",
   "7-Algorithms.md",
   "8-Operators.md",
   "0-StudyGuide.md",
   "CheatSheet.md"]

/-- The `fileNameMap` object of `src/script.js`, lines 82-94: legacy file
names mapped to their current names for URL hash compatibility. -/
def fileNameMap : List (String × String) :=
  [("TestIII_Topics_Overview.md", "Overview.md"),
   ("1_OOP_Basics.md", "1-OOP.md"),
   ("2_CPP_IO.md", "2-IO.md"),
   ("3_Inheritance_Polymorphism.md", "3-Inheritance.md"),
   ("4_MultiFile_Classes.md", "4-MultiFile.md"),
   ("5_Templates_STL.md", "5-Templates.md"),
   ("6_Smart_Pointers.md", "6-Pointers.md"),
   ("7_Algorithms_BFS_MinHeap.md", "7-Algorithms.md"),
   ("8_Operator_Overloading.md", "8-Operators.md"),
   ("CPP_Study_Guide.md", "0-StudyGuide.md"),
   ("CPP_Test3_Cheatsheet.md", "CheatSheet.md")]

/-- `fileNameMap[k]` of line 259: own-property lookup. (A key hitting only
the object prototype chain yields a non-string value in JS, which then fails
the `data-file` comparison on line 263 exactly as an unmapped string does, so
returning `none` for such keys is outcome-faithful.) -/
def lookupFileName (k : String) : Option String :=
  (fileNameMap.find? fun p => p.1 == k).map fun p => p.2

/-- Result of the `fetch(fileName)` + `response.ok` + `response.text()`
prelude of `loadMarkdownContent` (lines 293-299): either the body text, or
the message of the error that reached the `.catch` handler (a non-ok status
becomes `Error('Network response was not ok')`). -/
inductive FetchResult where
  | success (body : String)
  | failure (errMsg : String)
deriving DecidableEq

/-- The `#markdown-content` region. `errorPanel` is the error `<div>` built
on lines 346-351: it names the failed file and the error detail, and its
retry button (lines 354-356) re-invokes `loadMarkdownContent` on that file. -/
inductive Content where
  | initialContent
  | rendered (file : String) (body : String)
  | errorPanel (file : String) (errMsg : String)
deriving DecidableEq

/-- One `.topics-list a` anchor: its `data-file` attribute and whether it
carries the `active` class. -/
structure NavLink where
  file : String
  active : Bool
deriving DecidableEq

/-- The DOM/JS state the controller reads or writes. -/
structure State where
  navLinks : List NavLink
  currentTopicIndex : Int
  prevDisabled : Bool
  nextDisabled : Bool
  hash : Option String
  progressWidth : ℚ
  progressLabel : String
  content : Content
  fetchLog : List String
deriving DecidableEq

/-- `data-file` attributes of the sidebar links, in order. -/
def navFiles (s : State) : List String := s.navLinks.map NavLink.file

/-- `data-file` attributes of the links currently carrying the `active`
class, in order. -/
def activeFiles (s : State) : List String :=
  (s.navLinks.filter fun l => l.active).map NavLink.file

/-- `Array.prototype.indexOf`: first index of `x`, `-1` when absent. -/
def jsIndexOf : List String → String → Int
  | [], _ => -1
  | a :: rest, x =>
    if a == x then 0
    else
      let r := jsIndexOf rest x
      if r = -1 then -1 else r + 1

/-- `orderedTopics[i]` (line 175 / 185): `none` models JS `undefined` for an
out-of-range index. -/
def jsGetTopic (i : Int) : Option String :=
  if 0 ≤ i ∧ i < (orderedTopics.length : Int) then
    some (orderedTopics.getD i.toNat "")
  else none

/-- `updateNavigationButtons` (lines 209-240): the `disabled` flags; the
button label texts and the arrow opacities are purely presentational and are
not read back anywhere. -/
def updateNavigationButtons (s : State) : State :=
  { s with
    prevDisabled := s.currentTopicIndex == 0,
    nextDisabled := s.currentTopicIndex == (orderedTopics.length : Int) - 1 }

/-- `updateProgressIndicator` (lines 243-254). For an index in `[0, 8]` the
fill width becomes `index / 8 * 100` percent (exact in JS floats for these
indices) and the display shows the index; for an index above 8 the width
becomes 100 and the display reads "Complete"; otherwise nothing is touched. -/
def updateProgressIndicator (s : State) : State :=
  if 0 ≤ s.currentTopicIndex ∧ s.currentTopicIndex ≤ 8 then
    { s with
      progressWidth := (s.currentTopicIndex : ℚ) / 8 * 100,
      progressLabel := toString s.currentTopicIndex }
  else if 8 < s.currentTopicIndex then
    { s with progressWidth := 100, progressLabel := "Complete" }
  else s

/-- `loadMarkdownContent` (lines 287-358), with the eventual effect of its
`.then`/`.catch` callbacks folded in: the fetch for `fileName` is issued
(logged), and the content region ends up holding either the rendered document
or the error panel for `fileName`. -/
def loadMarkdownContent (fetch : String → FetchResult) (fileName : String)
    (s : State) : State :=
  { s with
    fetchLog := s.fetchLog ++ [fileName],
    content :=
      match fetch fileName with
      | FetchResult.success body => Content.rendered fileName body
      | FetchResult.failure msg => Content.errorPanel fileName msg }

/-- `window.location.hash = fileToLoad` (line 164). -/
def writeLocationHash (file : String) (s : State) : State :=
  { s with hash := some file }

/-- The click handler installed on every sidebar link (lines 136-169),
running on the link whose `data-file` is `file`: all links lose `active`, the
clicked one gains it, the markdown is loaded, `currentTopicIndex` is set to
`orderedTopics.indexOf(file)`, buttons and progress are refreshed, and the
URL fragment is set to `file`. (`window.scrollTo` and the mobile sidebar
collapse are presentational.) -/
def clickLink (fetch : String → FetchResult) (file : String) (s : State) :
    State :=
  writeLocationHash file
    (updateProgressIndicator
      (updateNavigationButtons
        { loadMarkdownContent fetch file
            { s with
              navLinks := s.navLinks.map fun l =>
                { l with active := l.file == file } }
          with currentTopicIndex := jsIndexOf orderedTopics file }))

/-- Dispatch of a navigation request for `topicId` (the spec's
`NavigateTo`): in the page a navigation only ever reaches the click handler
through an existing anchor with `data-file = topicId` — a direct sidebar
click, the `querySelector` + `.click()` of the prev/next handlers
(lines 176-177, 186-187), or the `find` + `.click()` of the hash path
(lines 262-268). When no such anchor exists, no handler runs. -/
def navigateTo (fetch : String → FetchResult) (topicId : String) (s : State) :
    State :=
  if s.navLinks.any fun l => l.file == topicId then clickLink fetch topicId s
  else s

/-- The `prev-topic` click handler (lines 172-179). `none` models the
uncaught `TypeError` JS would raise if `orderedTopics[currentTopicIndex]`
were `undefined` or no matching anchor existed (`null.click()`); both are
unreachable from states whose sidebar lists the ordered topics and whose
index is in range. -/
def clickPrevButton (fetch : String → FetchResult) (s : State) :
    Option State :=
  if 0 < s.currentTopicIndex then
    let i := s.currentTopicIndex - 1
    match jsGetTopic i with
    | none => none
    | some f =>
      if { s with currentTopicIndex := i }.navLinks.any fun l =>
          l.file == f then
        some (clickLink fetch f { s with currentTopicIndex := i })
      else none
  else some s

/-- The `next-topic` click handler (lines 182-189), symmetric to
`clickPrevButton`. -/
def clickNextButton (fetch : String → FetchResult) (s : State) :
    Option State :=
  if s.currentTopicIndex < (orderedTopics.length : Int) - 1 then
    let i := s.currentTopicIndex + 1
    match jsGetTopic i with
    | none => none
    | some f =>
      if { s with currentTopicIndex := i }.navLinks.any fun l =>
          l.file == f then
        some (clickLink fetch f { s with currentTopicIndex := i })
      else none
  else some s

/-- The retry button of the error panel (lines 354-356): when the content
region shows the error panel for file `f`, clicking retry re-invokes
`loadMarkdownContent` on `f`; with any other content no retry button
exists. -/
def clickRetry (fetch : String → FetchResult) (s : State) : State :=
  match s.content with
  | Content.errorPanel f _ => loadMarkdownContent fetch f s
  | _ => s

/-- Modelled from the spec: the page markup (`index.html`, not under `src/`)
supplies the sidebar — "a list of navigation links each carrying a
topic-file identifier" (spec section 6), one per entry of the ordered topic
sequence and in that order ("the sidebar only ever supplies valid ids"),
none carrying the `active` class before the script runs. The initial values
of the mutable scalars mirror the script's own initialisation
(`currentTopicIndex = 0`, line 96) or are immaterial because every
initialisation path overwrites them. -/
def initialDom (hashFragment : Option String) : State :=
  { navLinks := orderedTopics.map fun f => { file := f, active := false },
    currentTopicIndex := 0,
    prevDisabled := false,
    nextDisabled := false,
    hash := hashFragment,
    progressWidth := 0,
    progressLabel := "",
    content := Content.initialContent,
    fetchLog := [] }

/-- The fallback block that `src/script.js` writes out twice verbatim
(lines 270-275 for an unmatched hash and lines 278-283 for no hash): the
Overview link gains the `active` class (others are left as they are), the
index becomes 0, and buttons and progress are refreshed. -/
def hashFallback (s : State) : State :=
  updateProgressIndicator (updateNavigationButtons
    { s with
      navLinks := s.navLinks.map fun l =>
        if l.file == "Overview.md" then { l with active := true } else l,
      currentTopicIndex := 0 })

/-- The load-time run of the `DOMContentLoaded` handler (the spec's
`Initialize`, theming aside): the default `loadMarkdownContent('Overview.md')`
of line 133, then the hash check of lines 256-284 — a non-empty fragment is
resolved through `fileNameMap`, a matching sidebar link is clicked, and an
unknown fragment (or no fragment) falls back to marking the Overview link
active and refreshing buttons and progress at index 0. -/
def domContentLoaded (fetch : String → FetchResult)
    (hashFragment : Option String) : State :=
  let s1 := loadMarkdownContent fetch "Overview.md" (initialDom hashFragment)
  match hashFragment with
  | some frag =>
    let mapped := (lookupFileName frag).getD frag
    if s1.navLinks.any fun l => l.file == mapped then
      clickLink fetch mapped s1
    else
      hashFallback s1
  | none => hashFallback s1

/-- The user-triggerable operations after load, for stating invariants. -/
inductive Op where
  | navigate (topicId : String)
  | stepPrev
  | stepNext
  | retry

/-- Effect of one operation; `none` is an uncaught JS exception. -/
def applyOp (fetch : String → FetchResult) : Op → State → Option State
  | Op.navigate id, s => some (navigateTo fetch id s)
  | Op.stepPrev, s => clickPrevButton fetch s
  | Op.stepNext, s => clickNextButton fetch s
  | Op.retry, s => some (clickRetry fetch s)

/-- `n` successive clicks of the next-topic button. -/
def stepNextN (fetch : String → FetchResult) : Nat → State → Option State
  | 0, s => some s
  | n + 1, s => (clickNextButton fetch s).bind (stepNextN fetch n)

/-- A fetch oracle on which every file loads successfully. -/
def fetchOK : String → FetchResult := fun _ => FetchResult.success ""

/-- Everything of the state except the content region: the sidebar, the
current index, the two button flags, the URL fragment, the progress
indicator, and the fetch log. -/
def chrome (s : State) :
    List NavLink × Int × Bool × Bool × Option String × ℚ × String ×
      List String :=
  (s.navLinks, s.currentTopicIndex, s.prevDisabled, s.nextDisabled, s.hash,
   s.progressWidth, s.progressLabel, s.fetchLog)

/-! Projection lemmas: which fields each helper reads and writes. -/

@[simp] theorem setActive_file (l : NavLink) (b : Bool) :
    ({ l with active := b } : NavLink).file = l.file := rfl

@[simp] theorem unb_navLinks (s : State) :
    (updateNavigationButtons s).navLinks = s.navLinks := rfl

@[simp] theorem unb_currentTopicIndex (s : State) :
    (updateNavigationButtons s).currentTopicIndex = s.currentTopicIndex := rfl

@[simp] theorem unb_prevDisabled (s : State) :
    (updateNavigationButtons s).prevDisabled =
      (s.currentTopicIndex == 0) := rfl

@[simp] theorem unb_nextDisabled (s : State) :
    (updateNavigationButtons s).nextDisabled =
      (s.currentTopicIndex == (orderedTopics.length : Int) - 1) := rfl

@[simp] theorem unb_hash (s : State) :
    (updateNavigationButtons s).hash = s.hash := rfl

@[simp] theorem unb_progressWidth (s : State) :
    (updateNavigationButtons s).progressWidth = s.progressWidth := rfl

@[simp] theorem unb_progressLabel (s : State) :
    (updateNavigationButtons s).progressLabel = s.progressLabel := rfl

@[simp] theorem unb_content (s : State) :
    (updateNavigationButtons s).content = s.content := rfl

@[simp] theorem unb_fetchLog (s : State) :
    (updateNavigationButtons s).fetchLog = s.fetchLog := rfl

@[simp] theorem upi_navLinks (s : State) :
    (updateProgressIndicator s).navLinks = s.navLinks := by
  unfold updateProgressIndicator
  split
  · rfl
  · split <;> rfl

@[simp] theorem upi_currentTopicIndex (s : State) :
    (updateProgressIndicator s).currentTopicIndex = s.currentTopicIndex := by
  unfold updateProgressIndicator
  split
  · rfl
  · split <;> rfl

@[simp] theorem upi_prevDisabled (s : State) :
    (updateProgressIndicator s).prevDisabled = s.prevDisabled := by
  unfold updateProgressIndicator
  split
  · rfl
  · split <;> rfl

@[simp] theorem upi_nextDisabled (s : State) :
    (updateProgressIndicator s).nextDisabled = s.nextDisabled := by
  unfold updateProgressIndicator
  split
  · rfl
  · split <;> rfl

@[simp] theorem upi_hash (s : State) :
    (updateProgressIndicator s).hash = s.hash := by
  unfold updateProgressIndicator
  split
  · rfl
  · split <;> rfl

@[simp] theorem upi_content (s : State) :
    (updateProgressIndicator s).content = s.content := by
  unfold updateProgressIndicator
  split
  · rfl
  · split <;> rfl

@[simp] theorem upi_fetchLog (s : State) :
    (updateProgressIndicator s).fetchLog = s.fetchLog := by
  unfold updateProgressIndicator
  split
  · rfl
  · split <;> rfl

theorem upi_progress_of_mem (s : State) (h0 : 0 ≤ s.currentTopicIndex)
    (h8 : s.currentTopicIndex ≤ 8) :
    (updateProgressIndicator s).progressWidth =
        (s.currentTopicIndex : ℚ) / 8 * 100 ∧
      (updateProgressIndicator s).progressLabel =
        toString s.currentTopicIndex := by
  unfold updateProgressIndicator
  rw [if_pos ⟨h0, h8⟩]
  exact ⟨rfl, rfl⟩

theorem upi_progress_of_gt (s : State) (h : 8 < s.currentTopicIndex) :
    (updateProgressIndicator s).progressWidth = 100 ∧
      (updateProgressIndicator s).progressLabel = "Complete" := by
  unfold updateProgressIndicator
  rw [if_neg fun hc => absurd h (by omega), if_pos h]
  exact ⟨rfl, rfl⟩

@[simp] theorem lmc_navLinks (fetch : String → FetchResult) (f : String)
    (s : State) : (loadMarkdownContent fetch f s).navLinks = s.navLinks := rfl

@[simp] theorem lmc_currentTopicIndex (fetch : String → FetchResult)
    (f : String) (s : State) :
    (loadMarkdownContent fetch f s).currentTopicIndex =
      s.currentTopicIndex := rfl

@[simp] theorem lmc_prevDisabled (fetch : String → FetchResult) (f : String)
    (s : State) :
    (loadMarkdownContent fetch f s).prevDisabled = s.prevDisabled := rfl

@[simp] theorem lmc_nextDisabled (fetch : String → FetchResult) (f : String)
    (s : State) :
    (loadMarkdownContent fetch f s).nextDisabled = s.nextDisabled := rfl

@[simp] theorem lmc_hash (fetch : String → FetchResult) (f : String)
    (s : State) : (loadMarkdownContent fetch f s).hash = s.hash := rfl

@[simp] theorem lmc_progressWidth (fetch : String → FetchResult) (f : String)
    (s : State) :
    (loadMarkdownContent fetch f s).progressWidth = s.progressWidth := rfl

@[simp] theorem lmc_progressLabel (fetch : String → FetchResult) (f : String)
    (s : State) :
    (loadMarkdownContent fetch f s).progressLabel = s.progressLabel := rfl

@[simp] theorem lmc_fetchLog (fetch : String → FetchResult) (f : String)
    (s : State) :
    (loadMarkdownContent fetch f s).fetchLog = s.fetchLog ++ [f] := rfl

@[simp] theorem lmc_content (fetch : String → FetchResult) (f : String)
    (s : State) :
    (loadMarkdownContent fetch f s).content =
      (match fetch f with
       | FetchResult.success body => Content.rendered f body
       | FetchResult.failure msg => Content.errorPanel f msg) := rfl

@[simp] theorem wlh_navLinks (f : String) (s : State) :
    (writeLocationHash f s).navLinks = s.navLinks := rfl

@[simp] theorem wlh_currentTopicIndex (f : String) (s : State) :
    (writeLocationHash f s).currentTopicIndex = s.currentTopicIndex := rfl

@[simp] theorem wlh_prevDisabled (f : String) (s : State) :
    (writeLocationHash f s).prevDisabled = s.prevDisabled := rfl

@[simp] theorem wlh_nextDisabled (f : String) (s : State) :
    (writeLocationHash f s).nextDisabled = s.nextDisabled := rfl

@[simp] theorem wlh_hash (f : String) (s : State) :
    (writeLocationHash f s).hash = some f := rfl

@[simp] theorem wlh_progressWidth (f : String) (s : State) :
    (writeLocationHash f s).progressWidth = s.progressWidth := rfl

@[simp] theorem wlh_progressLabel (f : String) (s : State) :
    (writeLocationHash f s).progressLabel = s.progressLabel := rfl

@[simp] theorem wlh_content (f : String) (s : State) :
    (writeLocationHash f s).content = s.content := rfl

@[simp] theorem wlh_fetchLog (f : String) (s : State) :
    (writeLocationHash f s).fetchLog = s.fetchLog := rfl

/-! Derived projections through `clickLink`. -/

@[simp] theorem clickLink_navLinks (fetch : String → FetchResult)
    (file : String) (s : State) :
    (clickLink fetch file s).navLinks =
      s.navLinks.map fun l => { l with active := l.file == file } := by
  simp [clickLink]

@[simp] theorem clickLink_currentTopicIndex (fetch : String → FetchResult)
    (file : String) (s : State) :
    (clickLink fetch file s).currentTopicIndex =
      jsIndexOf orderedTopics file := by
  simp [clickLink]

@[simp] theorem clickLink_prevDisabled (fetch : String → FetchResult)
    (file : String) (s : State) :
    (clickLink fetch file s).prevDisabled =
      (jsIndexOf orderedTopics file == 0) := by
  simp [clickLink]

@[simp] theorem clickLink_nextDisabled (fetch : String → FetchResult)
    (file : String) (s : State) :
    (clickLink fetch file s).nextDisabled =
      (jsIndexOf orderedTopics file == (orderedTopics.length : Int) - 1) := by
  simp [clickLink]

@[simp] theorem clickLink_hash (fetch : String → FetchResult) (file : String)
    (s : State) : (clickLink fetch file s).hash = some file := rfl

@[simp] theorem clickLink_fetchLog (fetch : String → FetchResult)
    (file : String) (s : State) :
    (clickLink fetch file s).fetchLog = s.fetchLog ++ [file] := by
  simp [clickLink]

@[simp] theorem clickLink_content (fetch : String → FetchResult)
    (file : String) (s : State) :
    (clickLink fetch file s).content =
      (match fetch file with
       | FetchResult.success body => Content.rendered file body
       | FetchResult.failure msg => Content.errorPanel file msg) := by
  simp [clickLink]

theorem clickLink_progress_of_mem (fetch : String → FetchResult)
    (file : String) (s : State) (h0 : 0 ≤ jsIndexOf orderedTopics file)
    (h8 : jsIndexOf orderedTopics file ≤ 8) :
    (clickLink fetch file s).progressWidth =
        (jsIndexOf orderedTopics file : ℚ) / 8 * 100 ∧
      (clickLink fetch file s).progressLabel =
        toString (jsIndexOf orderedTopics file) := by
  unfold clickLink
  rw [wlh_progressWidth, wlh_progressLabel]
  have h := upi_progress_of_mem (updateNavigationButtons
    { loadMarkdownContent fetch file
        { s with
          navLinks := s.navLinks.map fun l =>
            { l with active := l.file == file } }
      with currentTopicIndex := jsIndexOf orderedTopics file })
    (by simpa using h0) (by simpa using h8)
  simpa using h

theorem clickLink_progress_of_gt (fetch : String → FetchResult)
    (file : String) (s : State) (h : 8 < jsIndexOf orderedTopics file) :
    (clickLink fetch file s).progressWidth = 100 ∧
      (clickLink fetch file s).progressLabel = "Complete" := by
  unfold clickLink
  rw [wlh_progressWidth, wlh_progressLabel]
  have h := upi_progress_of_gt (updateNavigationButtons
    { loadMarkdownContent fetch file
        { s with
          navLinks := s.navLinks.map fun l =>
            { l with active := l.file == file } }
      with currentTopicIndex := jsIndexOf orderedTopics file })
    (by simpa using h)
  simpa using h

/-! Facts about the sidebar link list and the concrete topic tables. -/

theorem any_file_eq_iff (links : List NavLink) (id : String) :
    (links.any fun l => l.file == id) = true ↔
      id ∈ links.map NavLink.file := by
  induction links with
  | nil => simp
  | cons l rest ih =>
    simp only [List.any_cons, Bool.or_eq_true, beq_iff_eq, List.map_cons,
      List.mem_cons, ih]
    constructor
    · rintro (rfl | h)
      · exact Or.inl rfl
      · exact Or.inr h
    · rintro (rfl | h)
      · exact Or.inl rfl
      · exact Or.inr h

theorem filter_setActive_of_not_mem (links : List NavLink) (id : String)
    (h : id ∉ links.map NavLink.file) :
    ((links.map fun l => { l with active := l.file == id }).filter
      fun l => l.active) = [] := by
  induction links with
  | nil => rfl
  | cons l rest ih =>
    simp only [List.map_cons, List.mem_cons] at h
    push_neg at h
    have hne : (l.file == id) = false := by
      simp [beq_eq_false_iff_ne]
      exact fun hc => h.1 hc.symm
    simp only [List.map_cons, List.filter_cons, hne]
    exact ih h.2

theorem activeFiles_setActive (links : List NavLink) (id : String)
    (hnd : (links.map NavLink.file).Nodup)
    (hmem : id ∈ links.map NavLink.file) :
    (((links.map fun l => { l with active := l.file == id }).filter
        fun l => l.active).map NavLink.file) = [id] := by
  induction links with
  | nil => simp at hmem
  | cons l rest ih =>
    simp only [List.map_cons] at hnd
    rcases List.nodup_cons.mp hnd with ⟨hnotin, hnd2⟩
    by_cases hl : l.file = id
    · subst hl
      have hbeq : (l.file == l.file) = true := by simp
      simp only [List.map_cons, List.filter_cons, hbeq]
      rw [filter_setActive_of_not_mem rest l.file hnotin]
      rfl
    · have hbeq : (l.file == id) = false := by
        simp [beq_eq_false_iff_ne, hl]
      simp only [List.map_cons, List.mem_cons] at hmem
      rcases hmem with rfl | hmem
      · exact absurd rfl hl
      · simp only [List.map_cons, List.filter_cons, hbeq]
        exact ih hnd2 hmem

theorem navFiles_clickLink (fetch : String → FetchResult) (file : String)
    (s : State) : navFiles (clickLink fetch file s) = navFiles s := by
  simp [navFiles, List.map_map, Function.comp]

theorem activeFiles_clickLink (fetch : String → FetchResult) (id : String)
    (s : State) (h : navFiles s = orderedTopics) (hid : id ∈ orderedTopics) :
    activeFiles (clickLink fetch id s) = [id] := by
  have hnd : (s.navLinks.map NavLink.file).Nodup := by
    rw [show s.navLinks.map NavLink.file = orderedTopics from h]
    decide
  have hmem : id ∈ s.navLinks.map NavLink.file := by
    rw [show s.navLinks.map NavLink.file = orderedTopics from h]
    exact hid
  simpa [activeFiles] using activeFiles_setActive s.navLinks id hnd hmem

theorem navLinks_any_of_navFiles (s : State) (id : String)
    (h : navFiles s = orderedTopics) (hid : id ∈ orderedTopics) :
    (s.navLinks.any fun l => l.file == id) = true :=
  (any_file_eq_iff s.navLinks id).mpr (by rw [show s.navLinks.map NavLink.file = orderedTopics from h]; exact hid)

theorem orderedTopics_nodup : orderedTopics.Nodup := by decide

theorem jsIndexOf_bounds :
    ∀ id ∈ orderedTopics,
      0 ≤ jsIndexOf orderedTopics id ∧ jsIndexOf orderedTopics id ≤ 10 := by
  decide

theorem lookupFileName_of_mem :
    ∀ id ∈ orderedTopics, lookupFileName id = none := by
  decide

theorem getD_mem_orderedTopics :
    ∀ n < 11, orderedTopics.getD n "" ∈ orderedTopics := by
  decide

theorem jsIndexOf_getD :
    ∀ n < 11, jsIndexOf orderedTopics (orderedTopics.getD n "") = (n : Int) := by
  decide

theorem orderedTopics_length : orderedTopics.length = 11 := rfl

theorem navigateTo_of_mem (fetch : String → FetchResult) (id : String)
    (s : State) (h : navFiles s = orderedTopics) (hid : id ∈ orderedTopics) :
    navigateTo fetch id s = clickLink fetch id s := by
  unfold navigateTo
  rw [if_pos (navLinks_any_of_navFiles s id h hid)]

/-- Re-clicking is insensitive to the pre-decremented index the prev/next
handlers write before looking up the adjacent link: the click handler
overwrites `currentTopicIndex` with `orderedTopics.indexOf(file)` and reads
no other field the decrement touched. -/
theorem clickLink_idx_irrel (fetch : String → FetchResult) (file : String)
    (s : State) (j : Int) :
    clickLink fetch file { s with currentTopicIndex := j } =
      clickLink fetch file s := rfl

theorem jsGetTopic_eq (i : Int) (h0 : 0 ≤ i) (h11 : i < 11) :
    jsGetTopic i = some (orderedTopics.getD i.toNat "") := by
  unfold jsGetTopic
  rw [if_pos ⟨h0, by rw [orderedTopics_length]; exact_mod_cast h11⟩]

theorem clickPrevButton_eq (fetch : String → FetchResult) (s : State)
    (h : navFiles s = orderedTopics) (h1 : 1 ≤ s.currentTopicIndex)
    (h10 : s.currentTopicIndex ≤ 11) :
    clickPrevButton fetch s =
      some (clickLink fetch
        (orderedTopics.getD (s.currentTopicIndex - 1).toNat "") s) := by
  unfold clickPrevButton
  rw [if_pos (by omega : (0 : Int) < s.currentTopicIndex)]
  have hget := jsGetTopic_eq (s.currentTopicIndex - 1) (by omega) (by omega)
  dsimp only
  rw [hget]
  have hmem : orderedTopics.getD (s.currentTopicIndex - 1).toNat "" ∈
      orderedTopics :=
    getD_mem_orderedTopics (s.currentTopicIndex - 1).toNat (by omega)
  have hany := navLinks_any_of_navFiles s
    (orderedTopics.getD (s.currentTopicIndex - 1).toNat "") h hmem
  dsimp only
  rw [if_pos hany]
  rfl

theorem clickNextButton_eq (fetch : String → FetchResult) (s : State)
    (h : navFiles s = orderedTopics) (h0 : -1 ≤ s.currentTopicIndex)
    (h9 : s.currentTopicIndex ≤ 9) :
    clickNextButton fetch s =
      some (clickLink fetch
        (orderedTopics.getD (s.currentTopicIndex + 1).toNat "") s) := by
  unfold clickNextButton
  rw [if_pos (by rw [orderedTopics_length]; omega :
    s.currentTopicIndex < (orderedTopics.length : Int) - 1)]
  have hget := jsGetTopic_eq (s.currentTopicIndex + 1) (by omega) (by omega)
  dsimp only
  rw [hget]
  have hmem : orderedTopics.getD (s.currentTopicIndex + 1).toNat "" ∈
      orderedTopics :=
    getD_mem_orderedTopics (s.currentTopicIndex + 1).toNat (by omega)
  have hany := navLinks_any_of_navFiles s
    (orderedTopics.getD (s.currentTopicIndex + 1).toNat "") h hmem
  dsimp only
  rw [if_pos hany]
  rfl

theorem clickPrevButton_noop (fetch : String → FetchResult) (s : State)
    (h : s.currentTopicIndex ≤ 0) : clickPrevButton fetch s = some s := by
  unfold clickPrevButton
  rw [if_neg (by omega)]

theorem clickNextButton_noop (fetch : String → FetchResult) (s : State)
    (h : 10 ≤ s.currentTopicIndex) : clickNextButton fetch s = some s := by
  unfold clickNextButton
  rw [if_neg (by rw [orderedTopics_length]; omega)]

theorem navFiles_hashFallback (s : State) :
    navFiles (hashFallback s) = navFiles s := by
  simp only [hashFallback, navFiles, upi_navLinks, unb_navLinks,
    List.map_map]
  apply List.map_congr_left
  intro l _
  simp only [Function.comp_apply]
  split <;> rfl

theorem navFiles_domContentLoaded (fetch : String → FetchResult)
    (frag : Option String) :
    navFiles (domContentLoaded fetch frag) = orderedTopics := by
  have hbase : ∀ h : Option String,
      navFiles (loadMarkdownContent fetch "Overview.md" (initialDom h)) =
        orderedTopics := by
    intro h
    rfl
  unfold domContentLoaded
  cases frag with
  | none => rw [navFiles_hashFallback, hbase]
  | some frag =>
    dsimp only
    split
    · rw [navFiles_clickLink, hbase]
    · rw [navFiles_hashFallback, hbase]

/-!
Post-processing of rendered content: the table-of-contents step of
`loadMarkdownContent` (line 311: `if (contentArea.offsetHeight > 1000)
addTableOfContents()`) and `addTableOfContents` itself (lines 382-423).
The rendered document is modelled as the list of its top-level elements,
each with its tag and optional `id` attribute; `offsetHeight` is a layout
quantity and enters as an explicit parameter.
-/

/-- Element tags the table-of-contents code distinguishes. -/
inductive Tag where
  | h1
  | h2
  | h3
  | other
deriving DecidableEq

/-- One element of the rendered `#markdown-content` document. -/
structure Element where
  tag : Tag
  id : Option String
deriving DecidableEq

/-- Membership in the `querySelectorAll('#markdown-content h2,
#markdown-content h3')` list of line 383: the headings the table of contents
tracks. -/
def isHeading (e : Element) : Bool := e.tag == Tag.h2 || e.tag == Tag.h3

/-- Match for `querySelector('#markdown-content h1, #markdown-content h2')`
of line 417: the anchor element the table of contents is inserted after. -/
def isH1orH2 (e : Element) : Bool := e.tag == Tag.h1 || e.tag == Tag.h2

/-- The generated `.table-of-contents` `<div>`: its list of anchor `href`s,
one per tracked heading in order (lines 391-414). -/
structure Toc where
  hrefs : List String
deriving DecidableEq

/-- A node of the post-processed document: an original element or the
inserted table of contents. -/
inductive Node where
  | elem (e : Element)
  | tocNode (t : Toc)
deriving DecidableEq

/-- The `headings.forEach` id assignment of lines 391-395: walking the
document in order, the `index`-th tracked heading keeps its `id` if it has
one and otherwise gets the synthetic id `heading-index`. -/
def assignIds : Nat → List Element → List Element
  | _, [] => []
  | idx, e :: rest =>
    if isHeading e then
      { e with id := some (e.id.getD ("heading-" ++ toString idx)) } ::
        assignIds (idx + 1) rest
    else
      e :: assignIds idx rest

/-- The anchor `href`s collected by the same `forEach` (line 401:
`link.href = "#" + heading.id`), for the tracked headings in order, using
the id each heading has after the assignment of lines 392-395. -/
def tocHrefs : Nat → List Element → List String
  | _, [] => []
  | idx, e :: rest =>
    if isHeading e then
      ("#" ++ e.id.getD ("heading-" ++ toString idx)) :: tocHrefs (idx + 1) rest
    else
      tocHrefs idx rest

/-- `firstHeading.parentNode.insertBefore(toc, firstHeading.nextSibling)`
(line 419): the table of contents goes directly after the first `h1`/`h2`
element. Only called when such an element exists. -/
def insertTocAfterFirst (t : Node) : List Element → List Node
  | [] => [t]
  | e :: rest =>
    if isH1orH2 e then Node.elem e :: t :: rest.map Node.elem
    else Node.elem e :: insertTocAfterFirst t rest

/-- Lines 416-422: insert after the first `h1`/`h2` when one exists,
otherwise `prepend` the table of contents to the content region. -/
def insertToc (t : Node) (elems : List Element) : List Node :=
  if elems.any isH1orH2 then insertTocAfterFirst t elems
  else t :: elems.map Node.elem

/-- `addTableOfContents` (lines 382-423): with fewer than 3 tracked headings
the document is left alone; otherwise ids are assigned, the anchor list is
built, and the table of contents is inserted. -/
def addTableOfContents (elems : List Element) : List Node :=
  if (elems.filter isHeading).length < 3 then elems.map Node.elem
  else insertToc (Node.tocNode ⟨tocHrefs 0 elems⟩) (assignIds 0 elems)

/-- The conditional call site of line 311: the table-of-contents step runs
only when the rendered content's `offsetHeight` exceeds 1000 layout
pixels. -/
def postProcessContent (elems : List Element) (offsetHeight : Nat) :
    List Node :=
  if 1000 < offsetHeight then addTableOfContents elems
  else elems.map Node.elem

/-! Observation helpers for stating properties of the processed document. -/

def isTocNode : Node → Bool
  | Node.tocNode _ => true
  | Node.elem _ => false

def isAnyHeadingNode : Node → Bool
  | Node.elem e => e.tag == Tag.h1 || e.tag == Tag.h2 || e.tag == Tag.h3
  | Node.tocNode _ => false

def isH1H2Node : Node → Bool
  | Node.elem e => isH1orH2 e
  | Node.tocNode _ => false

/-- Index of the first node satisfying `p`, if any. -/
def findIdxOpt (p : Node → Bool) : List Node → Option Nat
  | [] => none
  | n :: rest =>
    if p n then some 0 else (findIdxOpt p rest).map fun i => i + 1

def tocIdxOpt (ns : List Node) : Option Nat := findIdxOpt isTocNode ns

def firstAnyHeadingIdxOpt (ns : List Node) : Option Nat :=
  findIdxOpt isAnyHeadingNode ns

def firstH1H2IdxOpt (ns : List Node) : Option Nat :=
  findIdxOpt isH1H2Node ns

/-- The anchor list of the table of contents in the document, if one is
present. -/
def tocHrefsOpt : List Node → Option (List String)
  | [] => none
  | Node.tocNode t :: _ => some t.hrefs
  | Node.elem _ :: rest => tocHrefsOpt rest

/-- C9's wording "inserted directly after the first heading", as a check on
the processed document: a table of contents is present and its index is one
past the index of the first heading element. -/
def tocDirectlyAfterFirstHeading (ns : List Node) : Bool :=
  match tocIdxOpt ns, firstAnyHeadingIdxOpt ns with
  | some t, some q => t == q + 1
  | _, _ => false

/-! Lemmas about the table-of-contents pipeline. -/

theorem isHeading_setId (e : Element) (v : Option String) :
    isHeading { e with id := v } = isHeading e := rfl

theorem isH1orH2_setId (e : Element) (v : Option String) :
    isH1orH2 { e with id := v } = isH1orH2 e := rfl

theorem findIdxOpt_cons_true (p : Node → Bool) (n : Node)
    (rest : List Node) (h : p n = true) :
    findIdxOpt p (n :: rest) = some 0 := by
  simp [findIdxOpt, h]

theorem findIdxOpt_cons_false (p : Node → Bool) (n : Node)
    (rest : List Node) (h : p n = false) :
    findIdxOpt p (n :: rest) = (findIdxOpt p rest).map fun i => i + 1 := by
  simp [findIdxOpt, h]

theorem tocHrefs_eq_assignIds : ∀ (n : Nat) (elems : List Element),
    tocHrefs n elems =
      ((assignIds n elems).filter isHeading).map fun e => "#" ++ e.id.getD ""
  | _, [] => rfl
  | n, e :: rest => by
    by_cases h : isHeading e = true
    · simp only [tocHrefs, assignIds, h, if_pos, List.filter_cons,
        isHeading_setId, List.map_cons]
      rw [tocHrefs_eq_assignIds (n + 1) rest]
      rfl
    · simp only [tocHrefs, assignIds, h, Bool.false_eq_true, if_false,
        List.filter_cons]
      exact tocHrefs_eq_assignIds n rest

theorem assignIds_heading_id_isSome : ∀ (n : Nat) (elems : List Element),
    ∀ e ∈ assignIds n elems, isHeading e = true → e.id.isSome = true := by
  intro n elems
  induction elems generalizing n with
  | nil => intro e he; simp [assignIds] at he
  | cons a rest ih =>
    intro e he hh
    by_cases ha : isHeading a = true
    · simp only [assignIds, ha, if_pos, List.mem_cons] at he
      rcases he with rfl | he
      · rfl
      · exact ih (n + 1) e he hh
    · simp only [assignIds, ha, Bool.false_eq_true, if_false,
        List.mem_cons] at he
      rcases he with rfl | he
      · exact absurd hh ha
      · exact ih n e he hh

theorem any_isH1orH2_assignIds : ∀ (n : Nat) (elems : List Element),
    (assignIds n elems).any isH1orH2 = elems.any isH1orH2 := by
  intro n elems
  induction elems generalizing n with
  | nil => rfl
  | cons a rest ih =>
    by_cases ha : isHeading a = true
    · simp only [assignIds, ha, if_pos, List.any_cons, isH1orH2_setId,
        ih (n + 1)]
    · simp only [assignIds, ha, Bool.false_eq_true, if_false, List.any_cons,
        ih n]

theorem findIdxOpt_isTocNode_map_elem : ∀ l : List Element,
    findIdxOpt isTocNode (l.map Node.elem) = none
  | [] => rfl
  | e :: rest => by
    rw [List.map_cons,
      findIdxOpt_cons_false isTocNode (Node.elem e) _ rfl,
      findIdxOpt_isTocNode_map_elem rest]
    rfl

theorem tocHrefsOpt_map_elem : ∀ l : List Element,
    tocHrefsOpt (l.map Node.elem) = none
  | [] => rfl
  | _ :: rest => tocHrefsOpt_map_elem rest

theorem findIdxOpt_isH1H2_map_elem_of_any_false (l : List Element)
    (h : l.any isH1orH2 = false) :
    findIdxOpt isH1H2Node (l.map Node.elem) = none := by
  induction l with
  | nil => rfl
  | cons a rest ih =>
    simp only [List.any_cons, Bool.or_eq_false_iff] at h
    rw [List.map_cons,
      findIdxOpt_cons_false isH1H2Node (Node.elem a) _
        (by simp [isH1H2Node, h.1]),
      ih h.2]
    rfl

theorem insertTocAfterFirst_spec (hrefs : List String) :
    ∀ l : List Element, l.any isH1orH2 = true →
      ∃ q, firstH1H2IdxOpt
            (insertTocAfterFirst (Node.tocNode ⟨hrefs⟩) l) = some q ∧
        tocIdxOpt (insertTocAfterFirst (Node.tocNode ⟨hrefs⟩) l) =
          some (q + 1) ∧
        tocHrefsOpt (insertTocAfterFirst (Node.tocNode ⟨hrefs⟩) l) =
          some hrefs := by
  intro l hl
  induction l with
  | nil => simp at hl
  | cons a rest ih =>
    by_cases ha : isH1orH2 a = true
    · refine ⟨0, ?_, ?_, ?_⟩
      · rw [show insertTocAfterFirst (Node.tocNode ⟨hrefs⟩) (a :: rest) =
            Node.elem a :: Node.tocNode ⟨hrefs⟩ :: rest.map Node.elem from
            by simp [insertTocAfterFirst, ha]]
        exact findIdxOpt_cons_true isH1H2Node (Node.elem a) _
          (by simp [isH1H2Node, ha])
      · rw [show insertTocAfterFirst (Node.tocNode ⟨hrefs⟩) (a :: rest) =
            Node.elem a :: Node.tocNode ⟨hrefs⟩ :: rest.map Node.elem from
            by simp [insertTocAfterFirst, ha]]
        rw [tocIdxOpt, findIdxOpt_cons_false isTocNode (Node.elem a) _ rfl,
          findIdxOpt_cons_true isTocNode (Node.tocNode ⟨hrefs⟩) _ rfl]
        rfl
      · rw [show insertTocAfterFirst (Node.tocNode ⟨hrefs⟩) (a :: rest) =
            Node.elem a :: Node.tocNode ⟨hrefs⟩ :: rest.map Node.elem from
            by simp [insertTocAfterFirst, ha]]
        rfl
    · have haf : isH1orH2 a = false := by simpa using ha
      simp only [List.any_cons, haf, Bool.false_or] at hl
      rcases ih hl with ⟨q, h1, h2, h3⟩
      have hstep : insertTocAfterFirst (Node.tocNode ⟨hrefs⟩) (a :: rest) =
          Node.elem a :: insertTocAfterFirst (Node.tocNode ⟨hrefs⟩) rest := by
        simp [insertTocAfterFirst, haf]
      refine ⟨q + 1, ?_, ?_, ?_⟩
      · rw [firstH1H2IdxOpt, hstep,
          findIdxOpt_cons_false isH1H2Node (Node.elem a) _
            (by simp [isH1H2Node, haf]),
          show findIdxOpt isH1H2Node (insertTocAfterFirst
            (Node.tocNode ⟨hrefs⟩) rest) = some q from h1]
        rfl
      · rw [tocIdxOpt, hstep,
          findIdxOpt_cons_false isTocNode (Node.elem a) _ rfl,
          show findIdxOpt isTocNode (insertTocAfterFirst
            (Node.tocNode ⟨hrefs⟩) rest) = some (q + 1) from h2]
        rfl
      · rw [hstep]
        exact h3

theorem upi_width_congr (X Y : State)
    (hi : X.currentTopicIndex = Y.currentTopicIndex)
    (hw : X.progressWidth = Y.progressWidth) :
    (updateProgressIndicator X).progressWidth =
      (updateProgressIndicator Y).progressWidth := by
  unfold updateProgressIndicator
  by_cases h1 : 0 ≤ Y.currentTopicIndex ∧ Y.currentTopicIndex ≤ 8
  · rw [if_pos (by rw [hi]; exact h1), if_pos h1]
    dsimp only
    rw [hi]
  · rw [if_neg (by rw [hi]; exact h1), if_neg h1]
    by_cases h2 : 8 < Y.currentTopicIndex
    · rw [if_pos (by rw [hi]; exact h2), if_pos h2]
    · rw [if_neg (by rw [hi]; exact h2), if_neg h2]
      exact hw

theorem upi_label_congr (X Y : State)
    (hi : X.currentTopicIndex = Y.currentTopicIndex)
    (hl : X.progressLabel = Y.progressLabel) :
    (updateProgressIndicator X).progressLabel =
      (updateProgressIndicator Y).progressLabel := by
  unfold updateProgressIndicator
  by_cases h1 : 0 ≤ Y.currentTopicIndex ∧ Y.currentTopicIndex ≤ 8
  · rw [if_pos (by rw [hi]; exact h1), if_pos h1]
    dsimp only
    rw [hi]
  · rw [if_neg (by rw [hi]; exact h1), if_neg h1]
    by_cases h2 : 8 < Y.currentTopicIndex
    · rw [if_pos (by rw [hi]; exact h2), if_pos h2]
    · rw [if_neg (by rw [hi]; exact h2), if_neg h2]
      exact hl

theorem clickLink_width_fetch_irrel (fetchA fetchB : String → FetchResult)
    (f : String) (s : State) :
    (clickLink fetchA f s).progressWidth =
      (clickLink fetchB f s).progressWidth := by
  unfold clickLink
  rw [wlh_progressWidth, wlh_progressWidth]
  apply upi_width_congr <;> simp

theorem clickLink_label_fetch_irrel (fetchA fetchB : String → FetchResult)
    (f : String) (s : State) :
    (clickLink fetchA f s).progressLabel =
      (clickLink fetchB f s).progressLabel := by
  unfold clickLink
  rw [wlh_progressLabel, wlh_progressLabel]
  apply upi_label_congr <;> simp

/-- The whole non-content part of the state after a navigation is
independent of the fetch outcome: the fetch result only ever reaches the
content region. -/
theorem chrome_clickLink_fetch_irrel (fetchA fetchB : String → FetchResult)
    (f : String) (s : State) :
    chrome (clickLink fetchA f s) = chrome (clickLink fetchB f s) := by
  have hw := clickLink_width_fetch_irrel fetchA fetchB f s
  have hl := clickLink_label_fetch_irrel fetchA fetchB f s
  simp [chrome, hw, hl]

/-! The claims. -/

/-- C1: `NavigateTo(topicId)` is silently a no-op for every unknown id: when
`topicId` is not in the ordered topic sequence (and the sidebar lists
exactly the ordered topics), dispatching a navigation for it leaves the
whole state — current topic index, active sidebar entry, displayed content,
URL fragment, prev/next button flags — unchanged, and the fetch log does not
grow (no fetch is issued). -/
theorem c1_navigateTo_unknown_noop (fetch : String → FetchResult)
    (id : String) (s : State) (h : navFiles s = orderedTopics)
    (hid : id ∉ orderedTopics) :
    navigateTo fetch id s = s ∧
      (navigateTo fetch id s).fetchLog = s.fetchLog := by
  have hb : (s.navLinks.any fun l => l.file == id) = false := by
    cases hb : (s.navLinks.any fun l => l.file == id) with
    | false => rfl
    | true =>
      exact absurd (by
        have := (any_file_eq_iff s.navLinks id).mp hb
        rwa [show s.navLinks.map NavLink.file = orderedTopics from h]
          at this) hid
  have hmain : navigateTo fetch id s = s := by
    unfold navigateTo
    rw [hb]
    rfl
  exact ⟨hmain, by rw [hmain]⟩

/-- C1 witness: navigating to the unknown id "Missing.md" from the freshly
loaded page changes nothing and issues no fetch. -/
theorem c1_witness :
    navigateTo fetchOK "Missing.md" (domContentLoaded fetchOK none) =
        domContentLoaded fetchOK none ∧
      (navigateTo fetchOK "Missing.md"
          (domContentLoaded fetchOK none)).fetchLog =
        (domContentLoaded fetchOK none).fetchLog :=
  c1_navigateTo_unknown_noop fetchOK "Missing.md"
    (domContentLoaded fetchOK none) (by decide) (by decide)

/-- C2 counterexample: the claim says eight `StepNext()` calls from the
no-fragment initial state land on "0-StudyGuide.md" with the label
"Complete"; in fact they land on "8-Operators.md" (index 8, the last
main-curriculum topic) with the numeric label "8" — reaching the first
reference-material topic takes nine steps. -/
theorem c2_counterexample :
    ¬ ((stepNextN fetchOK 8 (domContentLoaded fetchOK none)).map
          (fun s => (activeFiles s, s.progressLabel)) =
        some (["0-StudyGuide.md"], "Complete")) := by decide

/-- C2 (amended): with the ordered sequence starting at "Overview.md" and no
URL fragment, the initial state has active topic "Overview.md", progress
width 0 percent with label "0", and the previous button disabled; calling
`StepNext()` NINE times from that state lands on the first
reference-material topic "0-StudyGuide.md", with progress width 100 percent,
label "Complete", and the next button still enabled. -/
theorem c2_amended_scenario :
    activeFiles (domContentLoaded fetchOK none) = ["Overview.md"] ∧
      (domContentLoaded fetchOK none).progressWidth = 0 ∧
      (domContentLoaded fetchOK none).progressLabel = "0" ∧
      (domContentLoaded fetchOK none).prevDisabled = true ∧
      (stepNextN fetchOK 9 (domContentLoaded fetchOK none)).map activeFiles =
        some ["0-StudyGuide.md"] ∧
      (stepNextN fetchOK 9 (domContentLoaded fetchOK none)).map
          State.progressWidth = some 100 ∧
      (stepNextN fetchOK 9 (domContentLoaded fetchOK none)).map
          State.progressLabel = some "Complete" ∧
      (stepNextN fetchOK 9 (domContentLoaded fetchOK none)).map
          State.nextDisabled = some false := by
  refine ⟨by decide, ?_, by decide, by decide, by decide, rfl, by decide,
    by decide⟩
  have h : (domContentLoaded fetchOK none).progressWidth =
      ((0 : ℤ) : ℚ) / 8 * 100 := rfl
  rw [h]
  norm_num

/-- C3: after navigating to a known topic `id` at position
`i = orderedTopics.indexOf(id)`, the current index is `i`; while `i` is in
the main-curriculum prefix (`i ≤ 8`, i.e. `i ≤ mainCount - 1` with
`mainCount = 9`) the progress fill width is `i / 8 * 100` percent and the
label shows the numeric index `i`; past the prefix (`8 < i`) the width is
100 percent and the label reads "Complete"; in particular the first
main-curriculum topic reports 0 percent and the last reports 100 percent. -/
theorem c3_progress_indicator (fetch : String → FetchResult) (s : State)
    (id : String) (h : navFiles s = orderedTopics)
    (hid : id ∈ orderedTopics) :
    (navigateTo fetch id s).currentTopicIndex =
        jsIndexOf orderedTopics id ∧
      0 ≤ jsIndexOf orderedTopics id ∧
      (jsIndexOf orderedTopics id ≤ 8 →
        (navigateTo fetch id s).progressWidth =
            (jsIndexOf orderedTopics id : ℚ) / 8 * 100 ∧
          (navigateTo fetch id s).progressLabel =
            toString (jsIndexOf orderedTopics id)) ∧
      (8 < jsIndexOf orderedTopics id →
        (navigateTo fetch id s).progressWidth = 100 ∧
          (navigateTo fetch id s).progressLabel = "Complete") ∧
      (jsIndexOf orderedTopics id = 0 →
        (navigateTo fetch id s).progressWidth = 0) ∧
      (jsIndexOf orderedTopics id = 8 →
        (navigateTo fetch id s).progressWidth = 100) := by
  rw [navigateTo_of_mem fetch id s h hid]
  have hb := jsIndexOf_bounds id hid
  refine ⟨clickLink_currentTopicIndex fetch id s, hb.1, ?_, ?_, ?_, ?_⟩
  · intro h8
    exact clickLink_progress_of_mem fetch id s hb.1 h8
  · intro h8
    exact clickLink_progress_of_gt fetch id s h8
  · intro h0
    have hw := (clickLink_progress_of_mem fetch id s hb.1 (by omega)).1
    rw [hw, h0]
    norm_num
  · intro h8
    have hw := (clickLink_progress_of_mem fetch id s hb.1 (by omega)).1
    rw [hw, h8]
    norm_num

/-- C3 witness: instantiated at the last main-curriculum topic
"8-Operators.md" on the freshly loaded page. -/
theorem c3_witness :
    (navigateTo fetchOK "8-Operators.md"
          (domContentLoaded fetchOK none)).currentTopicIndex =
        jsIndexOf orderedTopics "8-Operators.md" ∧
      0 ≤ jsIndexOf orderedTopics "8-Operators.md" ∧
      (jsIndexOf orderedTopics "8-Operators.md" ≤ 8 →
        (navigateTo fetchOK "8-Operators.md"
              (domContentLoaded fetchOK none)).progressWidth =
            (jsIndexOf orderedTopics "8-Operators.md" : ℚ) / 8 * 100 ∧
          (navigateTo fetchOK "8-Operators.md"
              (domContentLoaded fetchOK none)).progressLabel =
            toString (jsIndexOf orderedTopics "8-Operators.md")) ∧
      (8 < jsIndexOf orderedTopics "8-Operators.md" →
        (navigateTo fetchOK "8-Operators.md"
              (domContentLoaded fetchOK none)).progressWidth = 100 ∧
          (navigateTo fetchOK "8-Operators.md"
              (domContentLoaded fetchOK none)).progressLabel = "Complete") ∧
      (jsIndexOf orderedTopics "8-Operators.md" = 0 →
        (navigateTo fetchOK "8-Operators.md"
            (domContentLoaded fetchOK none)).progressWidth = 0) ∧
      (jsIndexOf orderedTopics "8-Operators.md" = 8 →
        (navigateTo fetchOK "8-Operators.md"
            (domContentLoaded fetchOK none)).progressWidth = 100) :=
  c3_progress_indicator fetchOK (domContentLoaded fetchOK none)
    "8-Operators.md" (by decide) (by decide)

/-- C4: on a state whose sidebar lists the ordered topics, StepPrevious from
any index in `[1, N-1]` equals `NavigateTo` on the adjacent (previous) topic
and lands on index `i - 1`; StepNext from `[0, N-2]` likewise lands on
`i + 1`; StepPrevious at index 0 and StepNext at index `N-1 = 10` return the
state unchanged, and there the corresponding button flag (as maintained by
`updateNavigationButtons`) is disabled. -/
theorem c4_step_adjacent (fetch : String → FetchResult) (s : State)
    (h : navFiles s = orderedTopics) :
    (1 ≤ s.currentTopicIndex → s.currentTopicIndex ≤ 10 →
      clickPrevButton fetch s =
          some (navigateTo fetch
            (orderedTopics.getD (s.currentTopicIndex - 1).toNat "") s) ∧
        ∀ t, clickPrevButton fetch s = some t →
          t.currentTopicIndex = s.currentTopicIndex - 1) ∧
    (0 ≤ s.currentTopicIndex → s.currentTopicIndex ≤ 9 →
      clickNextButton fetch s =
          some (navigateTo fetch
            (orderedTopics.getD (s.currentTopicIndex + 1).toNat "") s) ∧
        ∀ t, clickNextButton fetch s = some t →
          t.currentTopicIndex = s.currentTopicIndex + 1) ∧
    (s.currentTopicIndex = 0 →
      clickPrevButton fetch s = some s ∧
        (s.prevDisabled = (s.currentTopicIndex == 0) →
          s.prevDisabled = true)) ∧
    (s.currentTopicIndex = 10 →
      clickNextButton fetch s = some s ∧
        (s.nextDisabled =
            (s.currentTopicIndex == (orderedTopics.length : Int) - 1) →
          s.nextDisabled = true)) := by
  refine ⟨?_, ?_, ?_, ?_⟩
  · intro h1 h10
    have he := clickPrevButton_eq fetch s h h1 (by omega)
    have hmem : orderedTopics.getD (s.currentTopicIndex - 1).toNat "" ∈
        orderedTopics :=
      getD_mem_orderedTopics (s.currentTopicIndex - 1).toNat (by omega)
    constructor
    · rw [he, navigateTo_of_mem fetch _ s h hmem]
    · intro t ht
      rw [he] at ht
      injection ht with ht
      rw [← ht, clickLink_currentTopicIndex,
        jsIndexOf_getD (s.currentTopicIndex - 1).toNat (by omega)]
      omega
  · intro h0 h9
    have he := clickNextButton_eq fetch s h (by omega) h9
    have hmem : orderedTopics.getD (s.currentTopicIndex + 1).toNat "" ∈
        orderedTopics :=
      getD_mem_orderedTopics (s.currentTopicIndex + 1).toNat (by omega)
    constructor
    · rw [he, navigateTo_of_mem fetch _ s h hmem]
    · intro t ht
      rw [he] at ht
      injection ht with ht
      rw [← ht, clickLink_currentTopicIndex,
        jsIndexOf_getD (s.currentTopicIndex + 1).toNat (by omega)]
      omega
  · intro h0
    refine ⟨clickPrevButton_noop fetch s (by omega), ?_⟩
    intro hc
    rw [hc, h0]
    rfl
  · intro h10
    refine ⟨clickNextButton_noop fetch s (by omega), ?_⟩
    intro hc
    rw [hc, h10]
    decide

/-- C4 witness: on the freshly loaded page (index 0), StepNext equals
NavigateTo("1-OOP.md") and StepPrevious is a no-op with the previous button
disabled. -/
theorem c4_witness :
    clickNextButton fetchOK (domContentLoaded fetchOK none) =
        some (navigateTo fetchOK "1-OOP.md" (domContentLoaded fetchOK none)) ∧
      clickPrevButton fetchOK (domContentLoaded fetchOK none) =
        some (domContentLoaded fetchOK none) ∧
      (domContentLoaded fetchOK none).prevDisabled = true := by
  have h := c4_step_adjacent fetchOK (domContentLoaded fetchOK none)
    (by decide)
  refine ⟨?_, (h.2.2.1 (by decide)).1, (h.2.2.1 (by decide)).2 (by decide)⟩
  have h2 := (h.2.1 (by decide) (by decide)).1
  rwa [show orderedTopics.getD
      ((domContentLoaded fetchOK none).currentTopicIndex + 1).toNat "" =
    "1-OOP.md" from by decide] at h2

/-- C5: exactly one sidebar entry is active after every operation. Part 1:
for every known topic id, navigating to it leaves exactly the entry whose
file identifier is that id active. Part 2: initialisation — with or without
a URL fragment, of any value — leaves exactly one entry active. Part 3: the
exactly-one-active property is preserved by every user operation
(navigation, step previous/next, retry) that completes without an exception. -/
theorem c5_exactly_one_active :
    (∀ (fetch : String → FetchResult) (s : State) (id : String),
        navFiles s = orderedTopics → id ∈ orderedTopics →
          activeFiles (navigateTo fetch id s) = [id]) ∧
    (∀ (fetch : String → FetchResult) (frag : Option String),
        ∃ f, activeFiles (domContentLoaded fetch frag) = [f]) ∧
    (∀ (fetch : String → FetchResult) (op : Op) (s t : State),
        navFiles s = orderedTopics → (∃ f, activeFiles s = [f]) →
          applyOp fetch op s = some t → ∃ f, activeFiles t = [f]) := by
  refine ⟨?_, ?_, ?_⟩
  · intro fetch s id h hid
    rw [navigateTo_of_mem fetch id s h hid]
    exact activeFiles_clickLink fetch id s h hid
  · intro fetch frag
    cases frag with
    | none => exact ⟨"Overview.md", rfl⟩
    | some frag =>
      dsimp only [domContentLoaded]
      split
      · next hb =>
        refine ⟨(lookupFileName frag).getD frag,
          activeFiles_clickLink fetch _ _ rfl ?_⟩
        exact (any_file_eq_iff _ _).mp hb
      · next => exact ⟨"Overview.md", rfl⟩
  · intro fetch op s t h hact happ
    cases op with
    | navigate id =>
      simp only [applyOp] at happ
      injection happ with happ
      subst happ
      unfold navigateTo
      by_cases hb : (s.navLinks.any fun l => l.file == id) = true
      · rw [if_pos hb]
        refine ⟨id, activeFiles_clickLink fetch id s h ?_⟩
        have := (any_file_eq_iff s.navLinks id).mp hb
        rwa [show s.navLinks.map NavLink.file = orderedTopics from h] at this
      · rw [if_neg hb]
        exact hact
    | stepPrev =>
      simp only [applyOp] at happ
      by_cases h1 : 1 ≤ s.currentTopicIndex
      · by_cases h11 : s.currentTopicIndex ≤ 11
        · rw [clickPrevButton_eq fetch s h h1 h11] at happ
          injection happ with happ
          subst happ
          exact ⟨_, activeFiles_clickLink fetch _ s h
            (getD_mem_orderedTopics (s.currentTopicIndex - 1).toNat
              (by omega))⟩
        · exfalso
          unfold clickPrevButton at happ
          rw [if_pos (by omega)] at happ
          dsimp only at happ
          rw [show jsGetTopic (s.currentTopicIndex - 1) = none from by
            unfold jsGetTopic
            rw [if_neg (by rw [orderedTopics_length]; omega)]] at happ
          exact Option.noConfusion happ
      · rw [clickPrevButton_noop fetch s (by omega)] at happ
        injection happ with happ
        subst happ
        exact hact
    | stepNext =>
      simp only [applyOp] at happ
      by_cases h9 : s.currentTopicIndex ≤ 9
      · by_cases h0 : -1 ≤ s.currentTopicIndex
        · rw [clickNextButton_eq fetch s h h0 h9] at happ
          injection happ with happ
          subst happ
          exact ⟨_, activeFiles_clickLink fetch _ s h
            (getD_mem_orderedTopics (s.currentTopicIndex + 1).toNat
              (by omega))⟩
        · exfalso
          unfold clickNextButton at happ
          rw [if_pos (by rw [orderedTopics_length]; omega)] at happ
          dsimp only at happ
          rw [show jsGetTopic (s.currentTopicIndex + 1) = none from by
            unfold jsGetTopic
            rw [if_neg (by rw [orderedTopics_length]; omega)]] at happ
          exact Option.noConfusion happ
      · rw [clickNextButton_noop fetch s (by omega)] at happ
        injection happ with happ
        subst happ
        exact hact
    | retry =>
      simp only [applyOp] at happ
      injection happ with happ
      subst happ
      unfold clickRetry
      split
      · exact hact
      · exact hact

/-- C5 witness: navigating to "2-IO.md" on the freshly loaded page leaves
exactly the "2-IO.md" entry active. -/
theorem c5_witness :
    activeFiles (navigateTo fetchOK "2-IO.md"
      (domContentLoaded fetchOK none)) = ["2-IO.md"] :=
  c5_exactly_one_active.1 fetchOK (domContentLoaded fetchOK none) "2-IO.md"
    (by decide) (by decide)

/-- C6: for every deprecated filename in the legacy compatibility map,
initialising with a URL fragment carrying that filename yields exactly the
same state as initialising with the corresponding current filename. -/
theorem c6_legacy_mapping (fetch : String → FetchResult) (a b : String)
    (h : (a, b) ∈ fileNameMap) :
    domContentLoaded fetch (some a) = domContentLoaded fetch (some b) := by
  fin_cases h <;> rfl

/-- C6 witness: the deprecated "CPP_Study_Guide.md" fragment initialises to
the same state as the current "0-StudyGuide.md" fragment. -/
theorem c6_witness :
    domContentLoaded fetchOK (some "CPP_Study_Guide.md") =
      domContentLoaded fetchOK (some "0-StudyGuide.md") :=
  c6_legacy_mapping fetchOK "CPP_Study_Guide.md" "0-StudyGuide.md"
    (by decide)

/-- C7: deep-link round-trip — navigating to any known topic id writes
exactly that id into the URL fragment, and a subsequent page load with that
fragment activates exactly the entry for that id. -/
theorem c7_roundtrip (fetch fetch2 : String → FetchResult) (s : State)
    (id : String) (h : navFiles s = orderedTopics)
    (hid : id ∈ orderedTopics) :
    (navigateTo fetch id s).hash = some id ∧
      activeFiles (domContentLoaded fetch2 (some id)) = [id] := by
  constructor
  · rw [navigateTo_of_mem fetch id s h hid]
    exact clickLink_hash fetch id s
  · have hl : lookupFileName id = none := lookupFileName_of_mem id hid
    dsimp only [domContentLoaded]
    rw [hl, Option.getD_none]
    rw [if_pos (navLinks_any_of_navFiles
      (loadMarkdownContent fetch2 "Overview.md" (initialDom (some id)))
      id rfl hid)]
    exact activeFiles_clickLink fetch2 id _ rfl hid

/-- C7 witness: instantiated at "3-Inheritance.md". -/
theorem c7_witness :
    (navigateTo fetchOK "3-Inheritance.md"
          (domContentLoaded fetchOK none)).hash = some "3-Inheritance.md" ∧
      activeFiles (domContentLoaded fetchOK (some "3-Inheritance.md")) =
        ["3-Inheritance.md"] :=
  c7_roundtrip fetchOK fetchOK (domContentLoaded fetchOK none)
    "3-Inheritance.md" (by decide) (by decide)

/-- C8: when the fetch for a known topic fails with message `emsg`, the
navigation leaves the content region showing the error panel that names the
failed file and the error detail; everything outside the content region
(sidebar, index, button flags, URL fragment, progress, fetch log) is exactly
what a successful navigation to the same topic would produce; and the
panel's retry action re-invokes `loadMarkdownContent` on the same file,
i.e. re-issues the same fetch for the same topic. -/
theorem c8_fetch_failure (fetchF fetchS retryFetch : String → FetchResult)
    (s : State) (id emsg : String) (h : navFiles s = orderedTopics)
    (hid : id ∈ orderedTopics)
    (hf : fetchF id = FetchResult.failure emsg) :
    (navigateTo fetchF id s).content = Content.errorPanel id emsg ∧
      chrome (navigateTo fetchF id s) = chrome (navigateTo fetchS id s) ∧
      clickRetry retryFetch (navigateTo fetchF id s) =
        loadMarkdownContent retryFetch id (navigateTo fetchF id s) := by
  rw [navigateTo_of_mem fetchF id s h hid,
    navigateTo_of_mem fetchS id s h hid]
  have hc : (clickLink fetchF id s).content = Content.errorPanel id emsg := by
    rw [clickLink_content, hf]
  refine ⟨hc, chrome_clickLink_fetch_irrel fetchF fetchS id s, ?_⟩
  unfold clickRetry
  split
  · next f x heq =>
    rw [hc] at heq
    injection heq with h1 h2
    rw [h1]
  · next hne =>
    exact absurd hc (hne id emsg)

/-- C8 witness: a failing fetch for "5-Templates.md" on the freshly loaded
page. -/
theorem c8_witness :
    (navigateTo (fun _ => FetchResult.failure "Network response was not ok")
          "5-Templates.md" (domContentLoaded fetchOK none)).content =
        Content.errorPanel "5-Templates.md" "Network response was not ok" ∧
      chrome (navigateTo
          (fun _ => FetchResult.failure "Network response was not ok")
          "5-Templates.md" (domContentLoaded fetchOK none)) =
        chrome (navigateTo fetchOK "5-Templates.md"
          (domContentLoaded fetchOK none)) ∧
      clickRetry fetchOK (navigateTo
          (fun _ => FetchResult.failure "Network response was not ok")
          "5-Templates.md" (domContentLoaded fetchOK none)) =
        loadMarkdownContent fetchOK "5-Templates.md" (navigateTo
          (fun _ => FetchResult.failure "Network response was not ok")
          "5-Templates.md" (domContentLoaded fetchOK none)) :=
  c8_fetch_failure (fun _ => FetchResult.failure "Network response was not ok")
    fetchOK fetchOK (domContentLoaded fetchOK none) "5-Templates.md"
    "Network response was not ok" (by decide) (by decide) rfl

/-- C10: on every page load the default topic "Overview.md" is fetched
first, before the URL fragment is examined (the head of the fetch log is
always "Overview.md"); and when the fragment names a known topic other than
the default, that page load issues exactly two fetches — first "Overview.md",
then the fragment's topic. -/
theorem c10_default_first (fetch : String → FetchResult) :
    (∀ frag : Option String,
        (domContentLoaded fetch frag).fetchLog.head? = some "Overview.md") ∧
    (∀ t : String, t ∈ orderedTopics → t ≠ "Overview.md" →
        (domContentLoaded fetch (some t)).fetchLog = ["Overview.md", t]) := by
  constructor
  · intro frag
    cases frag with
    | none => rfl
    | some frag =>
      dsimp only [domContentLoaded]
      split
      · rw [clickLink_fetchLog]
        rfl
      · rfl
  · intro t hmem hne
    have hl : lookupFileName t = none := lookupFileName_of_mem t hmem
    dsimp only [domContentLoaded]
    rw [hl, Option.getD_none]
    rw [if_pos (navLinks_any_of_navFiles
      (loadMarkdownContent fetch "Overview.md" (initialDom (some t)))
      t rfl hmem)]
    rw [clickLink_fetchLog]
    rfl

/-- C10 witness: loading with the fragment "CheatSheet.md" fetches
"Overview.md" and then "CheatSheet.md". -/
theorem c10_witness :
    (domContentLoaded fetchOK (some "CheatSheet.md")).fetchLog =
      ["Overview.md", "CheatSheet.md"] :=
  (c10_default_first fetchOK).2 "CheatSheet.md" (by decide) (by decide)

/-- C9 counterexample: the claim places the table of contents "directly
after the first heading" whenever the height and heading-count conditions
hold; for a tall document whose only headings are three `h3` elements the
conditions hold (three heading elements, height 1001 over the threshold),
yet the code finds no `h1`/`h2` anchor and prepends the table of contents at
the very start of the content — before, not after, the first heading. -/
theorem c9_counterexample :
    ¬ ((tocDirectlyAfterFirstHeading (postProcessContent
          [⟨Tag.h3, none⟩, ⟨Tag.h3, none⟩, ⟨Tag.h3, none⟩] 1001) = true) ↔
        (1000 < 1001 ∧ 3 ≤ (([⟨Tag.h3, none⟩, ⟨Tag.h3, none⟩,
          ⟨Tag.h3, none⟩] : List Element).filter isHeading).length)) := by
  decide

/-- C9 (amended): after a successful render, a table of contents is present
if and only if the rendered content's height exceeds the 1000-pixel
threshold and the content contains at least 3 of the heading elements the
code tracks (`h2`/`h3`); when it is inserted, it sits directly after the
first `h1`/`h2` heading when one exists and at the very start of the content
otherwise; its entries anchor-link each tracked heading in order (entry
`#id` for the id the heading carries after processing), and every tracked
heading lacking an identifier has been assigned a synthetic one, so each is
linkable. -/
theorem c9_amended_toc (elems : List Element) (height : Nat) :
    ((tocIdxOpt (postProcessContent elems height)).isSome ↔
      (1000 < height ∧ 3 ≤ (elems.filter isHeading).length)) ∧
    (1000 < height → 3 ≤ (elems.filter isHeading).length →
      (∀ q, firstH1H2IdxOpt (postProcessContent elems height) = some q →
        tocIdxOpt (postProcessContent elems height) = some (q + 1)) ∧
      (firstH1H2IdxOpt (postProcessContent elems height) = none →
        tocIdxOpt (postProcessContent elems height) = some 0) ∧
      tocHrefsOpt (postProcessContent elems height) =
        some (((assignIds 0 elems).filter isHeading).map
          fun e => "#" ++ e.id.getD "") ∧
      (∀ e ∈ assignIds 0 elems, isHeading e = true → e.id.isSome = true)) := by
  by_cases hh : 1000 < height
  · by_cases hc : (elems.filter isHeading).length < 3
    · have hpp : postProcessContent elems height = elems.map Node.elem := by
        unfold postProcessContent addTableOfContents
        rw [if_pos hh, if_pos hc]
      constructor
      · rw [hpp, tocIdxOpt, findIdxOpt_isTocNode_map_elem]
        simp only [Option.isSome_none, Bool.false_eq_true, false_iff]
        intro hcon
        omega
      · intro _ h3
        omega
    · have h3 : 3 ≤ (elems.filter isHeading).length := by omega
      have hpp : postProcessContent elems height =
          insertToc (Node.tocNode ⟨tocHrefs 0 elems⟩) (assignIds 0 elems) := by
        unfold postProcessContent addTableOfContents
        rw [if_pos hh, if_neg hc]
      by_cases hany : (assignIds 0 elems).any isH1orH2 = true
      · rcases insertTocAfterFirst_spec (tocHrefs 0 elems) (assignIds 0 elems)
          hany with ⟨q, hq1, hq2, hq3⟩
        have hins : insertToc (Node.tocNode ⟨tocHrefs 0 elems⟩)
            (assignIds 0 elems) =
            insertTocAfterFirst (Node.tocNode ⟨tocHrefs 0 elems⟩)
              (assignIds 0 elems) := by
          unfold insertToc
          rw [if_pos hany]
        rw [hpp, hins]
        constructor
        · rw [hq2]
          simp [hh, h3]
        · intro _ _
          refine ⟨?_, ?_, ?_, assignIds_heading_id_isSome 0 elems⟩
          · intro q2 hq2f
            rw [hq1] at hq2f
            injection hq2f with he
            subst he
            exact hq2
          · intro hnone
            rw [hq1] at hnone
            exact Option.noConfusion hnone
          · rw [hq3, tocHrefs_eq_assignIds]
      · have hanyf : (assignIds 0 elems).any isH1orH2 = false := by
          simpa using hany
        have hins : insertToc (Node.tocNode ⟨tocHrefs 0 elems⟩)
            (assignIds 0 elems) =
            Node.tocNode ⟨tocHrefs 0 elems⟩ ::
              (assignIds 0 elems).map Node.elem := by
          unfold insertToc
          rw [hanyf]
          rfl
        rw [hpp, hins]
        have htoc : tocIdxOpt (Node.tocNode ⟨tocHrefs 0 elems⟩ ::
            (assignIds 0 elems).map Node.elem) = some 0 :=
          findIdxOpt_cons_true isTocNode _ _ rfl
        constructor
        · rw [htoc]
          simp [hh, h3]
        · intro _ _
          refine ⟨?_, ?_, ?_, assignIds_heading_id_isSome 0 elems⟩
          · intro q hq
            exfalso
            rw [firstH1H2IdxOpt, findIdxOpt_cons_false isH1H2Node
                (Node.tocNode ⟨tocHrefs 0 elems⟩) _ rfl,
              findIdxOpt_isH1H2_map_elem_of_any_false _ hanyf] at hq
            exact Option.noConfusion hq
          · intro _
            exact htoc
          · rw [tocHrefs_eq_assignIds]
            rfl
  · have hpp : postProcessContent elems height = elems.map Node.elem := by
      unfold postProcessContent
      rw [if_neg hh]
    constructor
    · rw [hpp, tocIdxOpt, findIdxOpt_isTocNode_map_elem]
      simp only [Option.isSome_none, Bool.false_eq_true, false_iff]
      intro hcon
      exact hh hcon.1
    · intro h1 _
      exact absurd h1 hh

/-- C9 witness: a tall document `h1, h2, h3, h2` (three tracked headings,
first anchor at node 0) gets its table of contents at node index 1, directly
after the first `h1`/`h2` heading. -/
theorem c9_witness :
    tocIdxOpt (postProcessContent [⟨Tag.h1, none⟩, ⟨Tag.h2, none⟩,
      ⟨Tag.h3, none⟩, ⟨Tag.h2, some "intro"⟩] 1200) = some 1 := by
  have h := (c9_amended_toc [⟨Tag.h1, none⟩, ⟨Tag.h2, none⟩,
    ⟨Tag.h3, none⟩, ⟨Tag.h2, some "intro"⟩] 1200).2 (by decide) (by decide)
  exact h.1 0 (by decide)

end StudyGuide
